import Mathlib

/-!
Verification of the `caip10` Go package: CAIP-2 / CAIP-10 chain-agnostic
identifier values.  Go strings are modelled at byte level as `List Nat`
(every relevant byte is ASCII); fallible Go functions returning
`(T, error)` are modelled as `Except GoErr T` where `GoErr` is the
package's closed error taxonomy (callers branch on the error kind).
-/

/-- Byte-level model of a Go string. -/
abbrev Str := List Nat

/-- Bytes of an ASCII string literal (convenience for concrete inputs). -/
def strB (s : String) : Str := s.data.map Char.toNat

/-- The closed error taxonomy of the package (errors.go): every validation
failure wraps one of these marker errors; callers test by kind. -/
inductive GoErr where
  | emptyValue
  | invalidFormat
  | invalidNamespace
  | invalidReference
  | invalidAddress
  | scanType
deriving DecidableEq, Repr

deriving instance DecidableEq for Except

/-- The colon byte. -/
def colonByte : Nat := 58

/-- A byte is not a colon (the loop guard `s[i] != ':'`). -/
def notColon (c : Nat) : Bool := c != colonByte

/-- `SplitCAIP10` (errors.go): splits `namespace:reference:address` on the
first two colons; the address keeps any further colons verbatim. -/
def SplitCAIP10 (s : Str) : Except GoErr (Str × Str × Str) :=
  if s = [] then .error .emptyValue
  else
    match s.dropWhile notColon with
    | [] => .error .invalidFormat
    | _ :: t =>
      match t.dropWhile notColon with
      | [] => .error .invalidFormat
      | _ :: addr => .ok (s.takeWhile notColon, t.takeWhile notColon, addr)

/-- `SplitCAIP2` (errors.go): splits `namespace:reference` on the first
colon and rejects a reference that contains another colon. -/
def SplitCAIP2 (s : Str) : Except GoErr (Str × Str) :=
  if s = [] then .error .emptyValue
  else
    match s.dropWhile notColon with
    | [] => .error .invalidFormat
    | _ :: ref =>
      if colonByte ∈ ref then .error .invalidFormat
      else .ok (s.takeWhile notColon, ref)

/-- One step of splitting: prepend byte `c` to an already-split tail. -/
def goSplitColonAux (c : Nat) (r : List Str) : List Str :=
  match r with
  | [] => [[c]]
  | h :: rs => if c = colonByte then [] :: h :: rs else (c :: h) :: rs

/-- `strings.Split(s, ":")`: all colon-separated parts of `s`. -/
def goSplitColon : Str → List Str
  | [] => [[]]
  | c :: t => goSplitColonAux c (goSplitColon t)

/-- Charset of `NamespaceRegex`: `[-a-z0-9]`. -/
def nsChar (c : Nat) : Bool := c = 45 || (97 ≤ c && c ≤ 122) || (48 ≤ c && c ≤ 57)

/-- Charset of `ReferenceRegex`: `[-_a-zA-Z0-9]`. -/
def refChar (c : Nat) : Bool :=
  c = 45 || c = 95 || (97 ≤ c && c ≤ 122) || (65 ≤ c && c ≤ 90) || (48 ≤ c && c ≤ 57)

/-- Charset of `AddressRegex`: `[-.%a-zA-Z0-9]`. -/
def addrChar (c : Nat) : Bool :=
  c = 45 || c = 46 || c = 37 || (97 ≤ c && c ≤ 122) || (65 ≤ c && c ≤ 90) || (48 ≤ c && c ≤ 57)

/-- Charset of the base58 (bitcoin) alphabet: `[1-9A-HJ-NP-Za-km-z]`. -/
def base58Char (c : Nat) : Bool :=
  (49 ≤ c && c ≤ 57) || (65 ≤ c && c ≤ 72) || (74 ≤ c && c ≤ 78) ||
  (80 ≤ c && c ≤ 90) || (97 ≤ c && c ≤ 107) || (109 ≤ c && c ≤ 122)

/-- Charset of lowercase hex: `[a-f0-9]`. -/
def hexLowerChar (c : Nat) : Bool := (97 ≤ c && c ≤ 102) || (48 ≤ c && c ≤ 57)

/-- `^charset{lo,hi}$`: a full-string match of a plain character-class regex. -/
def matchCharset (p : Nat → Bool) (lo hi : Nat) (s : Str) : Bool :=
  decide (lo ≤ s.length) && decide (s.length ≤ hi) && s.all p

/-- `NamespaceRegex` = `^[-a-z0-9]{3,8}$`. -/
def NamespaceRegexMatch (s : Str) : Bool := matchCharset nsChar 3 8 s

/-- `ReferenceRegex` = `^[-_a-zA-Z0-9]{1,32}$`. -/
def ReferenceRegexMatch (s : Str) : Bool := matchCharset refChar 1 32 s

/-- `AddressRegex` = `^[-.%a-zA-Z0-9]{1,128}$`. -/
def AddressRegexMatch (s : Str) : Bool := matchCharset addrChar 1 128 s

/-- `solanaAddressRegex` = `^[1-9A-HJ-NP-Za-km-z]{32,44}$`. -/
def solanaAddressRegexMatch (s : Str) : Bool := matchCharset base58Char 32 44 s

/-- `solanaReferenceRegex` = `^[1-9A-HJ-NP-Za-km-z]{32}$`. -/
def solanaReferenceRegexMatch (s : Str) : Bool := matchCharset base58Char 32 32 s

/-- `bip122ReferenceRegex` = `^[a-f0-9]{32}$`. -/
def bip122ReferenceRegexMatch (s : Str) : Bool := matchCharset hexLowerChar 32 32 s

/-- A decimal digit byte. -/
def digitChar (c : Nat) : Bool := 48 ≤ c && c ≤ 57

/-- Numeric value of a decimal digit string. -/
def digitsToNat (s : Str) : Nat := s.foldl (fun a c => a * 10 + (c - 48)) 0

/-- `strconv.ParseUint(s, 10, 64)`: non-empty all-digit string (no sign,
no underscores at base 10) whose value fits in 64 bits. -/
def goParseUint64 (s : Str) : Option Nat :=
  if s ≠ [] ∧ s.all digitChar then
    let v := digitsToNat s
    if v < 2 ^ 64 then some v else none
  else none

/-- `big.Int.SetString(s, 10)`: an optional sign followed by a non-empty
all-digit string (underscores are rejected when the base is not 0). -/
def bigIntSetString10 (s : Str) : Option Int :=
  let natPart : Str → Option Nat := fun t =>
    if t ≠ [] ∧ t.all digitChar then some (digitsToNat t) else none
  match s with
  | 43 :: t => (natPart t).map Int.ofNat
  | 45 :: t => (natPart t).map (fun n => -(n : Int))
  | t => (natPart t).map Int.ofNat

/-- `big.Int.String` / `strconv.FormatUint`: decimal representation. -/
def intToDecStr (n : Int) : Str :=
  if n < 0 then 45 :: (Nat.toDigits 10 n.natAbs).map Char.toNat
  else (Nat.toDigits 10 n.toNat).map Char.toNat

example : SplitCAIP10 (strB "eip155:1:0xab") = .ok (strB "eip155", strB "1", strB "0xab") := by
  decide

example : SplitCAIP10 (strB "eip155:1") = .error .invalidFormat := by decide

example : SplitCAIP2 (strB "eip155:1:0xab") = .error .invalidFormat := by decide

example : goSplitColon (strB "a:b:c") = [strB "a", strB "b", strB "c"] := by decide

example : goParseUint64 (strB "18446744073709551615") = some (2 ^ 64 - 1) := by decide

example : goParseUint64 (strB "18446744073709551616") = none := by decide

example : bigIntSetString10 (strB "-57") = some (-57) := by decide

example : intToDecStr (-57) = strB "-57" := by decide

/-- `GenericAccountID` (generic.go): the three-field base value
`{namespace, reference, address}`. -/
structure GenericAccountID where
  nspace : Str  -- `namespace` is reserved in Lean
  reference : Str
  address : Str
deriving DecidableEq, Repr

/-- The zero `GenericAccountID`: all three fields empty. -/
def zeroAcct : GenericAccountID := ⟨[], [], []⟩

/-- `GenericAccountID.IsZero`. -/
def GenericAccountID.IsZero (a : GenericAccountID) : Bool :=
  a.nspace.isEmpty && a.reference.isEmpty && a.address.isEmpty

/-- `GenericAccountID.String`: `namespace:reference:address`, or empty for
the zero value. -/
def GenericAccountID.StringRep (a : GenericAccountID) : Str :=
  if a.IsZero then []
  else a.nspace ++ colonByte :: a.reference ++ colonByte :: a.address

/-- `GenericAccountID.ChainID` projection target (chainid.go): the CAIP-2
two-field value. -/
structure ChainID where
  nspace : Str  -- `namespace` is reserved in Lean
  reference : Str
deriving DecidableEq, Repr

/-- `GenericAccountID.ChainID`. -/
def GenericAccountID.toChainID (a : GenericAccountID) : ChainID :=
  ⟨a.nspace, a.reference⟩

/-- Modelled from the spec: the external Ethereum address type
(`ecommon.Address`) is out of scope and exposes only a canonical hex
string form (`Hex()`); it is modelled by that string. -/
structure EthAddress where
  hexForm : Str
deriving DecidableEq, Repr

/-- Modelled from the spec: `ecommon.HexToAddress` never fails; parsing is
out of scope, so the address is modelled as carrying the canonical form
the external codec would produce for the given hex string. -/
def HexToAddress (s : Str) : EthAddress := ⟨s⟩

/-- `maxEIP155ChainID` (eip155.go): `10^32 - 1`. -/
def maxEIP155ChainID : Int := 10 ^ 32 - 1

/-- `eip155AccountID`: embedded generic base plus native address and
big-integer chain id. -/
structure EIP155Acct where
  base : GenericAccountID
  ethAddr : EthAddress
  chainID : Int
deriving DecidableEq, Repr

/-- `NewEIP155` (eip155.go): caps the chain id at `maxEIP155ChainID` and
stores its decimal string as the reference; never fails. -/
def NewEIP155 (chainID : Int) (address : EthAddress) : EIP155Acct :=
  let c := if chainID > maxEIP155ChainID then maxEIP155ChainID else chainID
  { base := ⟨strB "eip155", intToDecStr c, address.hexForm⟩
    ethAddr := address
    chainID := c }

/-- `NewEIP155FromHex` (eip155.go). -/
def NewEIP155FromHex (chainID : Int) (hexAddress : Str) : EIP155Acct :=
  NewEIP155 chainID (HexToAddress hexAddress)

/-- `newEIP155FromReference` (eip155.go): parses the reference as a base-10
big integer; the only failure is `ErrInvalidReference`. -/
def newEIP155FromReference (reference hexAddress : Str) : Except GoErr EIP155Acct :=
  match bigIntSetString10 reference with
  | none => .error .invalidReference
  | some c => .ok (NewEIP155FromHex c hexAddress)

/-- `SolanaNetwork.String` (solana.go): truncates the token to its first
32 bytes. -/
def SolanaNetworkString (n : Str) : Str :=
  if n.length > 32 then n.take 32 else n

/-- Value of a base58 digit, if the byte is in the bitcoin alphabet. -/
def base58Val (c : Nat) : Option Nat :=
  (strB "123456789ABCDEFGHJKLMNPQRSTUVWXYZabcdefghijkmnopqrstuvwxyz").indexOf? c
    |>.filter (fun _ => base58Char c)

/-- Numeric value of a base58 string (none on an out-of-alphabet byte). -/
def base58DecodeNum : Str → Option Nat
  | [] => some 0
  | c :: t => do
    let v ← base58Val c
    let r ← base58DecodeNum t
    pure (v * 58 ^ t.length + r)

/-- Big-endian digit expansion with explicit fuel (structural recursion so
that the kernel can evaluate it). -/
def natToDigitsBECore (base : Nat) : Nat → Nat → List Nat
  | 0, _ => []
  | fuel + 1, n => if n = 0 then [] else natToDigitsBECore base fuel (n / base) ++ [n % base]

/-- Minimal big-endian byte representation of a natural number. -/
def natToBytesBE (n : Nat) : List Nat := natToDigitsBECore 256 (n + 1) n

/-- Modelled from the spec: the external base58 codec ("raw byte form" of
the Solana public-key collaborator) — leading `'1'` digits become leading
zero bytes, the rest is the big-endian value. -/
def base58DecodeBytes (s : Str) : Option (List Nat) :=
  (base58DecodeNum s).map
    (fun v => List.replicate (s.takeWhile (· = 49)).length 0 ++ natToBytesBE v)

/-- Modelled from the spec: `web3.NewPublicKey` — the external Solana
public-key codec parses a base58 string into a 32-byte key, failing on any
other decoded length. -/
def web3NewPublicKey (s : Str) : Option (List Nat) :=
  match base58DecodeBytes s with
  | some b => if b.length = 32 then some b else none
  | none => none

/-- Base58 digits (most significant first) of a natural number. -/
def natToBase58 (n : Nat) : Str :=
  (natToDigitsBECore 58 (n + 1) n).map
    (fun d =>
      ((strB "123456789ABCDEFGHJKLMNPQRSTUVWXYZabcdefghijkmnopqrstuvwxyz").get? d).getD 0)

/-- Modelled from the spec: `web3.PublicKey.String` — canonical base58
form of the 32 key bytes (leading zero bytes become `'1'` digits). -/
def web3PublicKeyString (b : List Nat) : Str :=
  List.replicate (b.takeWhile (· = 0)).length 49 ++
    natToBase58 (b.foldl (fun a c => a * 256 + c) 0)

/-- `solanaAccountID`: embedded generic base plus native public key. -/
structure SolanaAcct where
  base : GenericAccountID
  pubkey : List Nat
deriving DecidableEq, Repr

/-- `NewSolana` (solana.go): stores the truncated network token as the
reference and the canonical base58 key string as the address. -/
def NewSolana (network : Str) (address : List Nat) : SolanaAcct :=
  { base := ⟨strB "solana", SolanaNetworkString network, web3PublicKeyString address⟩
    pubkey := address }

/-- `NewSolanaFromBase58` (solana.go): format regex, base58 decode, 32-byte
length check; the network token is not examined. -/
def NewSolanaFromBase58 (network base58Address : Str) : Except GoErr SolanaAcct :=
  if !solanaAddressRegexMatch base58Address then .error .invalidAddress
  else
    match web3NewPublicKey base58Address with
    | none => .error .invalidAddress
    | some pk =>
      if pk.length ≠ 32 then .error .invalidAddress
      else .ok (NewSolana network pk)

example : (strB "7S3P4HxJpyyigGzodYwHtCxZyUQe9JiBMHyRWXArAaKv").length = 44 := by decide

/-- `BIP122Network.String` (bip122.go): truncates the token to its first
32 bytes. -/
def BIP122NetworkString (n : Str) : Str :=
  if n.length > 32 then n.take 32 else n

/-- Charset of the bech32 data part: `[qpzry9x8gf2tvdw0s3jn54khce6mua7l]`. -/
def bech32Char (c : Nat) : Bool :=
  (strB "qpzry9x8gf2tvdw0s3jn54khce6mua7l").contains c

/-- Lowercase letter byte. -/
def lowerChar (c : Nat) : Bool := 97 ≤ c && c ≤ 122

/-- Fixed prefix followed by a bounded character-class run. -/
def matchTail (pfx : Str) (p : Nat → Bool) (lo hi : Nat) (s : Str) : Bool :=
  pfx.isPrefixOf s && matchCharset p lo hi (s.drop pfx.length)

/-- One byte out of `firsts` followed by a bounded character-class run. -/
def matchHeadTail (firsts : Str) (p : Nat → Bool) (lo hi : Nat) (s : Str) : Bool :=
  match s with
  | [] => false
  | c :: t => firsts.contains c && matchCharset p lo hi t

/-- `bitcoinMainnetAddressRegex`:
`^(bc1[bech32]{39,59}|3[base58]{25,34})$`. -/
def bitcoinMainnetAddressMatch (s : Str) : Bool :=
  matchTail (strB "bc1") bech32Char 39 59 s || matchHeadTail (strB "3") base58Char 25 34 s

/-- `bitcoinTestnetAddressRegex`:
`^(tb1[bech32]{39,59}|2[base58]{25,34})$`. -/
def bitcoinTestnetAddressMatch (s : Str) : Bool :=
  matchTail (strB "tb1") bech32Char 39 59 s || matchHeadTail (strB "2") base58Char 25 34 s

/-- `bitcoinCashMainnetAddressRegex`:
`^(bitcoincash:)?[qp][bech32]{41}$|^[13][base58]{25,34}$`. -/
def bitcoinCashMainnetAddressMatch (s : Str) : Bool :=
  matchHeadTail (strB "qp") bech32Char 41 41 s ||
  ((strB "bitcoincash:").isPrefixOf s && matchHeadTail (strB "qp") bech32Char 41 41 (s.drop 12)) ||
  matchHeadTail (strB "13") base58Char 25 34 s

/-- `litecoinMainnetAddressRegex`:
`^(ltc1[bech32]{39,59}|[M3][base58]{25,34})$`. -/
def litecoinMainnetAddressMatch (s : Str) : Bool :=
  matchTail (strB "ltc1") bech32Char 39 59 s || matchHeadTail (strB "M3") base58Char 25 34 s

/-- `litecoinTestnetAddressRegex`:
`^(tltc1[bech32]{39,59}|[mn2][base58]{25,34})$`. -/
def litecoinTestnetAddressMatch (s : Str) : Bool :=
  matchTail (strB "tltc1") bech32Char 39 59 s || matchHeadTail (strB "mn2") base58Char 25 34 s

/-- `dogecoinMainnetAddressRegex`: `^[D9A][base58]{25,34}$`. -/
def dogecoinMainnetAddressMatch (s : Str) : Bool :=
  matchHeadTail (strB "D9A") base58Char 25 34 s

/-- `dogecoinTestnetAddressRegex`: `^[nm][base58]{25,34}$`. -/
def dogecoinTestnetAddressMatch (s : Str) : Bool :=
  matchHeadTail (strB "nm") base58Char 25 34 s

/-- `dashMainnetAddressRegex`: `^[X7][base58]{25,34}$`. -/
def dashMainnetAddressMatch (s : Str) : Bool :=
  matchHeadTail (strB "X7") base58Char 25 34 s

/-- `genericBIP122AddressRegex`:
`^([base58]{25,35}|[a-z]{1,12}:?[bech32]{39,64})$`. -/
def genericBIP122AddressMatch (s : Str) : Bool :=
  matchCharset base58Char 25 35 s ||
  (List.range 12).any (fun i =>
    let k := i + 1
    decide (k ≤ s.length) && (s.take k).all lowerChar &&
      (matchCharset bech32Char 39 64 (s.drop k) ||
        match s.drop k with
        | c :: t => c = colonByte && matchCharset bech32Char 39 64 t
        | [] => false))

/-- The eight known BIP122 network constants (genesis-hash prefixes). -/
def BitcoinMainnet : Str := strB "000000000019d6689c085ae165831e93"

/-- Bitcoin testnet genesis-hash prefix. -/
def BitcoinTestnet : Str := strB "000000000933ea01ad0ee984209779ba"

/-- Bitcoin Cash mainnet genesis-hash prefix. -/
def BitcoinCashMainnet : Str := strB "000000000000000000651ef99cb9fcbe"

/-- Litecoin mainnet genesis-hash prefix. -/
def LitecoinMainnet : Str := strB "12a765e31ffd4059bada1e25190f6e98"

/-- Litecoin testnet genesis-hash prefix. -/
def LitecoinTestnet : Str := strB "4966625a4b2851d9fdee139e56211a0d"

/-- Dogecoin mainnet genesis-hash prefix. -/
def DogecoinMainnet : Str := strB "1a91e3dace36e2be3bf030a65679fe82"

/-- Dogecoin testnet genesis-hash prefix. -/
def DogecoinTestnet : Str := strB "bb0a78264637406b6360aad926284d54"

/-- Dash mainnet genesis-hash prefix. -/
def DashMainnet : Str := strB "00000ffd590b1485b3caadc19b22e637"

/-- `ValidateBIP122Address` (bip122.go): per-network regex table with a
generic fallback; the empty address is always rejected. -/
def ValidateBIP122Address (network address : Str) : Except GoErr Unit :=
  if address = [] then .error .invalidAddress
  else
    let ok :=
      if network = BitcoinMainnet then bitcoinMainnetAddressMatch address
      else if network = BitcoinTestnet then bitcoinTestnetAddressMatch address
      else if network = BitcoinCashMainnet then bitcoinCashMainnetAddressMatch address
      else if network = LitecoinMainnet then litecoinMainnetAddressMatch address
      else if network = LitecoinTestnet then litecoinTestnetAddressMatch address
      else if network = DogecoinMainnet then dogecoinMainnetAddressMatch address
      else if network = DogecoinTestnet then dogecoinTestnetAddressMatch address
      else if network = DashMainnet then dashMainnetAddressMatch address
      else genericBIP122AddressMatch address
    if ok then .ok () else .error .invalidAddress

/-- `bip122AccountID`: embedded generic base plus the network token. -/
structure BIP122Acct where
  base : GenericAccountID
  network : Str
deriving DecidableEq, Repr

/-- `NewBIP122` (bip122.go): stores the truncated network token as the
reference and the address verbatim; performs no validation. -/
def NewBIP122 (network address : Str) : BIP122Acct :=
  { base := ⟨strB "bip122", BIP122NetworkString network, address⟩
    network := network }

/-- `NewBIP122WithValidation` (bip122.go). -/
def NewBIP122WithValidation (network address : Str) : Except GoErr BIP122Acct :=
  match ValidateBIP122Address network address with
  | .error e => .error e
  | .ok _ => .ok (NewBIP122 network address)

/-- `GenericAccountID.Validate` (generic.go): namespace grammar first, then
namespace-dispatching reference/address validation — the three built-in
namespaces reuse their own constructors, anything else the generic
regexes. -/
def GenericAccountID.Validate (a : GenericAccountID) : Except GoErr Unit :=
  if !NamespaceRegexMatch a.nspace then .error .invalidNamespace
  else if a.nspace = strB "eip155" then
    match newEIP155FromReference a.reference a.address with
    | .error e => .error e
    | .ok _ => .ok ()
  else if a.nspace = strB "solana" then
    match NewSolanaFromBase58 a.reference a.address with
    | .error e => .error e
    | .ok _ => .ok ()
  else if a.nspace = strB "bip122" then
    match NewBIP122WithValidation a.reference a.address with
    | .error e => .error e
    | .ok _ => .ok ()
  else if !ReferenceRegexMatch a.reference then .error .invalidReference
  else if !AddressRegexMatch a.address then .error .invalidAddress
  else .ok ()

/-- `NewGeneric` (generic.go): construct and validate. -/
def NewGeneric (ns ref addr : Str) : Except GoErr GenericAccountID :=
  match GenericAccountID.Validate ⟨ns, ref, addr⟩ with
  | .error e => .error e
  | .ok _ => .ok ⟨ns, ref, addr⟩

example : (GenericAccountID.Validate ⟨strB "cosmos", strB "cosmoshub-3", strB "cosmos1abc"⟩) = .ok () := by decide

example : (GenericAccountID.Validate ⟨strB "eip155", strB "-9", strB "whatever"⟩) = .ok () := by decide

example : (GenericAccountID.Validate ⟨strB "bip122", BitcoinMainnet, strB "35PBEaofpUeH8VnnNSorM1QZsadrZoQp4N"⟩) = .ok () := by decide

/-- `GenericAccountID.MarshalText`: the canonical string. -/
def GenericAccountID.MarshalText (a : GenericAccountID) : Str := a.StringRep

/-- `GenericAccountID.UnmarshalText`: split and re-validate through the
generic grammar (the receiver-mutation is modelled by returning the new
value). -/
def GenericAccountID.UnmarshalText (text : Str) : Except GoErr GenericAccountID :=
  match SplitCAIP10 text with
  | .error e => .error e
  | .ok (ns, ref, addr) => NewGeneric ns ref addr

/-- `GenericAccountID.MarshalBinary`:
`[nsLen:1][refLen:1][addrLen:2 BE][ns][ref][addr]` (Go's `byte`/`uint16`
conversions truncate, hence the explicit mod). -/
def GenericAccountID.MarshalBinary (a : GenericAccountID) : List Nat :=
  a.nspace.length % 256 :: a.reference.length % 256 ::
    a.address.length / 256 % 256 :: a.address.length % 256 ::
    (a.nspace ++ a.reference ++ a.address)

/-- `GenericAccountID.UnmarshalBinary`: header length checks, then field
extraction and generic re-validation. -/
def GenericAccountID.UnmarshalBinary (data : List Nat) : Except GoErr GenericAccountID :=
  match data with
  | b0 :: b1 :: b2 :: b3 :: rest =>
    if data.length ≠ 4 + b0 + b1 + (b2 * 256 + b3) then .error .invalidFormat
    else
      NewGeneric (rest.take b0) ((rest.drop b0).take b1)
        ((rest.drop (b0 + b1)).take (b2 * 256 + b3))
  | _ => .error .invalidFormat

/-- The quote byte. -/
def quoteByte : Nat := 34

/-- `GenericAccountID.MarshalJSON`: the canonical string as a bare JSON
string. -/
def GenericAccountID.MarshalJSON (a : GenericAccountID) : List Nat :=
  if a.IsZero then [quoteByte, quoteByte]
  else quoteByte :: a.StringRep ++ [quoteByte]

/-- `GenericAccountID.UnmarshalJSON`: `null` and `""` yield the zero value;
any non-string payload is `InvalidFormat`; otherwise text decode. -/
def GenericAccountID.UnmarshalJSON (data : List Nat) : Except GoErr GenericAccountID :=
  if data = strB "null" then .ok zeroAcct
  else if data.length < 2 ∨ data.head? ≠ some quoteByte ∨ data.getLast? ≠ some quoteByte then
    .error .invalidFormat
  else
    let s := (data.drop 1).dropLast
    if s = [] then .ok zeroAcct
    else GenericAccountID.UnmarshalText s

/-- `GenericAccountID.Value` (driver.Valuer): `nil` for the zero value,
else the canonical string. -/
def GenericAccountID.ValueSQL (a : GenericAccountID) : Option Str :=
  if a.IsZero then none else some a.StringRep

/-- The possible dynamic types of a `sql.Scan` source. -/
inductive ScanSrc where
  | nullSrc
  | strSrc (v : Str)
  | bytesSrc (v : List Nat)
  | otherSrc
deriving DecidableEq, Repr

/-- `GenericAccountID.Scan`: `nil` and empty string/bytes yield the zero
value, non-empty string/bytes go through the text codec, anything else is
a typed scan error. -/
def GenericAccountID.ScanSQL (src : ScanSrc) : Except GoErr GenericAccountID :=
  match src with
  | .nullSrc => .ok zeroAcct
  | .strSrc v => if v = [] then .ok zeroAcct else GenericAccountID.UnmarshalText v
  | .bytesSrc v => if v = [] then .ok zeroAcct else GenericAccountID.UnmarshalText v
  | .otherSrc => .error .scanType

/-- `Scan(Value(a))`: the SQL round trip, feeding the driver value back as
the matching source type. -/
def GenericAccountID.ScanOfValue (a : GenericAccountID) : Except GoErr GenericAccountID :=
  match a.ValueSQL with
  | none => GenericAccountID.ScanSQL .nullSrc
  | some s => GenericAccountID.ScanSQL (.strSrc s)

/-- `validateReference` (chainid.go): namespace-specific reference
validation; the namespace universe is the hard-coded three-way switch. -/
def validateReference (ns reference : Str) : Except GoErr Unit :=
  if ns = strB "eip155" then
    match goParseUint64 reference with
    | none => .error .invalidReference
    | some _ => .ok ()
  else if ns = strB "solana" then
    if !solanaReferenceRegexMatch reference then .error .invalidReference else .ok ()
  else if ns = strB "bip122" then
    if !bip122ReferenceRegexMatch reference then .error .invalidReference else .ok ()
  else .error .invalidNamespace

/-- `ParseChainID` (chainid.go): split on every colon, require exactly two
parts, then namespace-specific reference validation. -/
def ParseChainID (s : Str) : Except GoErr ChainID :=
  match goSplitColon s with
  | [p0, p1] =>
    match validateReference p0 p1 with
    | .error e => .error e
    | .ok _ => .ok ⟨p0, p1⟩
  | _ => .error .invalidFormat

/-- `ChainID.IsZero`. -/
def ChainID.IsZero (c : ChainID) : Bool := c.nspace.isEmpty && c.reference.isEmpty

/-- `ChainID.Validate`. -/
def ChainID.ValidateChain (c : ChainID) : Except GoErr Unit :=
  if c.IsZero then .error .emptyValue
  else validateReference c.nspace c.reference

/-- `ChainID.String`. -/
def ChainID.StringRep (c : ChainID) : Str :=
  if c.IsZero then [] else c.nspace ++ colonByte :: c.reference

/-- `NewEIP155ChainID` (chainid.go). -/
def NewEIP155ChainID (chainID : Nat) : ChainID :=
  ⟨strB "eip155", intToDecStr (chainID : Int)⟩

/-- Any of the concrete `AccountID` implementations the initialized parser
registry can produce (the three `init`-registered variants plus the
generic fallback). -/
inductive AnyAccountID where
  | generic (g : GenericAccountID)
  | eip (e : EIP155Acct)
  | sol (s : SolanaAcct)
  | btc (b : BIP122Acct)
deriving DecidableEq, Repr

/-- The embedded `GenericAccountID` of any variant (every variant embeds
one and inherits the accessors from it). -/
def AnyAccountID.base : AnyAccountID → GenericAccountID
  | .generic g => g
  | .eip e => e.base
  | .sol s => s.base
  | .btc b => b.base

/-- `(*eip155Parser).ParseAddress` (eip155.go). -/
def eip155ParseAddress (reference address : Str) : Except GoErr AnyAccountID :=
  match newEIP155FromReference reference address with
  | .error e => .error e
  | .ok a => .ok (.eip a)

/-- `(*solanaParser).ParseAddress` (solana.go). -/
def solanaParseAddress (reference address : Str) : Except GoErr AnyAccountID :=
  match NewSolanaFromBase58 reference address with
  | .error e => .error e
  | .ok a => .ok (.sol a)

/-- `(*bip122Parser).ParseAddress` (bip122.go): total, no validation. -/
def bip122ParseAddress (reference address : Str) : Except GoErr AnyAccountID :=
  .ok (.btc (NewBIP122 reference address))

/-- `Parse` (interface.go): split, look the namespace up in the registry at
its initialized state (the three `init`-registered parsers), and fall back
to generic construction for unregistered namespaces. -/
def Parse (s : Str) : Except GoErr AnyAccountID :=
  match SplitCAIP10 s with
  | .error e => .error e
  | .ok (ns, ref, addr) =>
    if ns = strB "eip155" then eip155ParseAddress ref addr
    else if ns = strB "solana" then solanaParseAddress ref addr
    else if ns = strB "bip122" then bip122ParseAddress ref addr
    else
      match NewGeneric ns ref addr with
      | .error e => .error e
      | .ok g => .ok (.generic g)

/-- `IsZero` through the `AccountID` interface: every variant delegates to
its embedded generic value. -/
def AnyAccountID.IsZero (x : AnyAccountID) : Bool := x.base.IsZero

/-- `Equal` through the `AccountID` interface: zero values compare equal to
each other, otherwise the three accessor fields are compared (every
variant delegates to the embedded `GenericAccountID.Equal`). -/
def AnyAccountID.Equal (x y : AnyAccountID) : Bool :=
  if x.IsZero && y.IsZero then true
  else if x.IsZero || y.IsZero then false
  else
    x.base.nspace == y.base.nspace &&
    x.base.reference == y.base.reference &&
    x.base.address == y.base.address

example : Parse (strB "bip122:nothex:!!") =
    .ok (.btc (NewBIP122 (strB "nothex") (strB "!!"))) := by decide

example : Parse (strB "eip155:1") = .error .invalidFormat := by decide

example : Parse (strB "unknown:1:addr") =
    .ok (.generic ⟨strB "unknown", strB "1", strB "addr"⟩) := by decide

example : ParseChainID (strB "cosmos:cosmoshub-3") = .error .invalidNamespace := by decide

example : Parse (strB "cosmos:cosmoshub-3:cosmos1abc") =
    .ok (.generic ⟨strB "cosmos", strB "cosmoshub-3", strB "cosmos1abc"⟩) := by decide

theorem notColon_iff {c : Nat} : notColon c = true ↔ c ≠ colonByte := by
  simp [notColon]

theorem takeWhile_append_colon (a b : Str) (h : colonByte ∉ a) :
    (a ++ colonByte :: b).takeWhile notColon = a := by
  induction a with
  | nil => simp [List.takeWhile_cons, notColon]
  | cons c t ih =>
    have hc : c ≠ colonByte := fun e => h (e ▸ List.mem_cons_self c t)
    have ht : colonByte ∉ t := fun m => h (List.mem_cons_of_mem _ m)
    simp [List.takeWhile_cons, notColon_iff.mpr hc, ih ht]

theorem dropWhile_append_colon (a b : Str) (h : colonByte ∉ a) :
    (a ++ colonByte :: b).dropWhile notColon = colonByte :: b := by
  induction a with
  | nil => simp [List.dropWhile_cons, notColon]
  | cons c t ih =>
    have hc : c ≠ colonByte := fun e => h (e ▸ List.mem_cons_self c t)
    have ht : colonByte ∉ t := fun m => h (List.mem_cons_of_mem _ m)
    simp [List.dropWhile_cons, notColon_iff.mpr hc, ih ht]

theorem dropWhile_head_colon {s : Str} {c : Nat} {t : Str}
    (h : s.dropWhile notColon = c :: t) : c = colonByte := by
  induction s with
  | nil => simp [List.dropWhile] at h
  | cons a l ih =>
    rw [List.dropWhile_cons] at h
    by_cases ha : notColon a = true
    · rw [if_pos ha] at h; exact ih h
    · rw [if_neg ha] at h
      cases h
      simpa [notColon] using ha

theorem colon_not_mem_takeWhile (s : Str) : colonByte ∉ s.takeWhile notColon := by
  intro m
  have := List.mem_takeWhile_imp m
  simp [notColon] at this

theorem dropWhile_ne_nil_of_mem {s : Str} (h : colonByte ∈ s) :
    s.dropWhile notColon ≠ [] := by
  intro e
  have := (List.dropWhile_eq_nil_iff).mp e colonByte h
  simp [notColon] at this

theorem dropWhile_colon_decomp {s : Str} {t : Str}
    (h : s.dropWhile notColon = colonByte :: t) :
    s = s.takeWhile notColon ++ colonByte :: t := by
  conv_lhs => rw [← List.takeWhile_append_dropWhile (p := notColon) (l := s)]
  rw [h]

theorem count_pos_of_mem {a : Nat} {l : Str} (h : a ∈ l) : 1 ≤ l.count a := by
  have : l.count a ≠ 0 := fun e => (List.count_eq_zero.mp e) h
  omega

theorem count_colon_decomp (a t : Str) (h : colonByte ∉ a) :
    (a ++ colonByte :: t).count colonByte = 1 + t.count colonByte := by
  rw [List.count_append, List.count_cons, List.count_eq_zero.mpr h]
  simp [Nat.add_comm]

/-- Build form of `SplitCAIP10`: a string assembled from a colon-free
namespace and reference splits back into exactly those parts. -/
theorem SplitCAIP10_build (ns ref addr : Str) (h1 : colonByte ∉ ns) (h2 : colonByte ∉ ref) :
    SplitCAIP10 (ns ++ colonByte :: (ref ++ colonByte :: addr)) = .ok (ns, ref, addr) := by
  have hne : ns ++ colonByte :: (ref ++ colonByte :: addr) ≠ [] := by simp
  unfold SplitCAIP10
  rw [if_neg hne, dropWhile_append_colon _ _ h1, takeWhile_append_colon _ _ h1]
  split
  next heq => exact absurd heq (by simp)
  next c t heq =>
    obtain ⟨rfl, rfl⟩ : c = colonByte ∧ ref ++ colonByte :: addr = t := by
      injection heq with hA hB
      exact ⟨hA.symm, hB⟩
    rw [dropWhile_append_colon _ _ h2, takeWhile_append_colon _ _ h2]

/-- Shape form of `SplitCAIP10`: a successful split reassembles the input
and the namespace and reference parts are colon-free. -/
theorem SplitCAIP10_ok_shape {s ns ref addr : Str}
    (h : SplitCAIP10 s = .ok (ns, ref, addr)) :
    s = ns ++ colonByte :: (ref ++ colonByte :: addr) ∧ colonByte ∉ ns ∧ colonByte ∉ ref := by
  unfold SplitCAIP10 at h
  split at h
  · exact absurd h (by simp)
  split at h
  · exact absurd h (by simp)
  next c t heq =>
    split at h
    · exact absurd h (by simp)
    next c2 u heq2 =>
      have hc := dropWhile_head_colon heq
      subst hc
      have hc2 := dropWhile_head_colon heq2
      subst hc2
      simp only [Except.ok.injEq, Prod.mk.injEq] at h
      obtain ⟨hns, href, haddr⟩ := h
      subst hns; subst href; subst haddr
      have e1 := dropWhile_colon_decomp heq
      have e2 := dropWhile_colon_decomp heq2
      refine ⟨?_, colon_not_mem_takeWhile s, colon_not_mem_takeWhile t⟩
      conv_lhs => rw [e1, e2]

/-- `SplitCAIP10` on fewer than two colons (non-empty input). -/
theorem SplitCAIP10_invalid {s : Str} (hs : s ≠ []) (h : s.count colonByte < 2) :
    SplitCAIP10 s = .error .invalidFormat := by
  unfold SplitCAIP10
  rw [if_neg hs]
  split
  · rfl
  next c t heq =>
    have hc := dropWhile_head_colon heq
    subst hc
    have e1 := dropWhile_colon_decomp heq
    have hcs : s.count colonByte = 1 + t.count colonByte := by
      conv_lhs => rw [e1]
      exact count_colon_decomp _ _ (colon_not_mem_takeWhile s)
    split
    · rfl
    next c2 u heq2 =>
      exfalso
      have hc2 := dropWhile_head_colon heq2
      subst hc2
      have e2 := dropWhile_colon_decomp heq2
      have : colonByte ∈ t := by rw [e2]; simp
      have := count_pos_of_mem this
      omega

/-- `SplitCAIP10` succeeds when there are at least two colons. -/
theorem SplitCAIP10_ok_of_two {s : Str} (h : 2 ≤ s.count colonByte) :
    ∃ ns ref addr, SplitCAIP10 s = .ok (ns, ref, addr) := by
  have hmem : colonByte ∈ s := by
    by_contra hm
    rw [List.count_eq_zero.mpr hm] at h
    omega
  have hs : s ≠ [] := by rintro rfl; simp at hmem
  unfold SplitCAIP10
  rw [if_neg hs]
  split
  next heq => exact absurd heq (dropWhile_ne_nil_of_mem hmem)
  next c t heq =>
    have hc := dropWhile_head_colon heq
    subst hc
    have e1 := dropWhile_colon_decomp heq
    have hcs : s.count colonByte = 1 + t.count colonByte := by
      conv_lhs => rw [e1]
      exact count_colon_decomp _ _ (colon_not_mem_takeWhile s)
    have hmem2 : colonByte ∈ t := by
      by_contra hm
      rw [List.count_eq_zero.mpr hm] at hcs
      omega
    split
    next heq2 => exact absurd heq2 (dropWhile_ne_nil_of_mem hmem2)
    next c2 u heq2 => exact ⟨_, _, _, rfl⟩

/-- C4, part for `SplitCAIP2`: two or more colons are rejected. -/
theorem SplitCAIP2_two_colons {s : Str} (h : 2 ≤ s.count colonByte) :
    SplitCAIP2 s = .error .invalidFormat := by
  have hmem : colonByte ∈ s := by
    by_contra hm
    rw [List.count_eq_zero.mpr hm] at h
    omega
  have hs : s ≠ [] := by rintro rfl; simp at hmem
  unfold SplitCAIP2
  rw [if_neg hs]
  split
  next heq => exact absurd heq (dropWhile_ne_nil_of_mem hmem)
  next c t heq =>
    have hc := dropWhile_head_colon heq
    subst hc
    have e1 := dropWhile_colon_decomp heq
    have hcs : s.count colonByte = 1 + t.count colonByte := by
      conv_lhs => rw [e1]
      exact count_colon_decomp _ _ (colon_not_mem_takeWhile s)
    have hmem2 : colonByte ∈ t := by
      by_contra hm
      rw [List.count_eq_zero.mpr hm] at hcs
      omega
    rw [if_pos hmem2]

/-- C4: `SplitCAIP10` reports `EmptyValue` exactly on the empty string,
`InvalidFormat` exactly on non-empty strings with fewer than two colons,
and otherwise returns the text before the first colon, the text between
the first two colons, and the remainder verbatim; `SplitCAIP2`
additionally rejects any input whose reference portion contains a colon
(i.e. any input with two or more colons). -/
theorem C4_split_spec :
    (∀ s : Str, SplitCAIP10 s = .error .emptyValue ↔ s = []) ∧
    (∀ s : Str, SplitCAIP10 s = .error .invalidFormat ↔ s ≠ [] ∧ s.count colonByte < 2) ∧
    (∀ s ns ref addr : Str, SplitCAIP10 s = .ok (ns, ref, addr) ↔
      (s = ns ++ colonByte :: (ref ++ colonByte :: addr) ∧ colonByte ∉ ns ∧ colonByte ∉ ref)) ∧
    (∀ s : Str, 2 ≤ s.count colonByte → SplitCAIP2 s = .error .invalidFormat) := by
  have hok : ∀ s ns ref addr : Str, SplitCAIP10 s = .ok (ns, ref, addr) ↔
      (s = ns ++ colonByte :: (ref ++ colonByte :: addr) ∧ colonByte ∉ ns ∧ colonByte ∉ ref) := by
    intro s ns ref addr
    constructor
    · exact SplitCAIP10_ok_shape
    · rintro ⟨rfl, h1, h2⟩
      exact SplitCAIP10_build ns ref addr h1 h2
  refine ⟨?_, ?_, hok, fun s => SplitCAIP2_two_colons⟩
  · intro s
    constructor
    · intro h
      by_contra hs
      by_cases h2 : 2 ≤ s.count colonByte
      · obtain ⟨ns, ref, addr, hsp⟩ := SplitCAIP10_ok_of_two h2
        rw [hsp] at h
        exact absurd h (by simp)
      · rw [SplitCAIP10_invalid hs (by omega)] at h
        exact absurd h (by simp)
    · rintro rfl; rfl
  · intro s
    constructor
    · intro h
      by_cases hs : s = []
      · subst hs; exact absurd h (by simp [SplitCAIP10])
      by_cases h2 : 2 ≤ s.count colonByte
      · obtain ⟨ns, ref, addr, hsp⟩ := SplitCAIP10_ok_of_two h2
        rw [hsp] at h
        exact absurd h (by simp)
      · exact ⟨hs, by omega⟩
    · rintro ⟨hs, h2⟩
      exact SplitCAIP10_invalid hs h2

/-- C4 witness: the characterization applied to concrete inputs, including
an address that itself contains a colon. -/
theorem C4_split_spec_witness :
    SplitCAIP10 (strB "hedera:mainnet:0.0.123:suffix") =
      .ok (strB "hedera", strB "mainnet", strB "0.0.123:suffix") ∧
    SplitCAIP10 (strB "eip155:1") = .error .invalidFormat ∧
    SplitCAIP10 [] = .error .emptyValue ∧
    SplitCAIP2 (strB "eip155:1:0xab") = .error .invalidFormat := by
  refine ⟨?_, ?_, ?_, ?_⟩
  · exact (C4_split_spec.2.2.1 _ _ _ _).mpr ⟨by decide, by decide, by decide⟩
  · exact (C4_split_spec.2.1 _).mpr ⟨by decide, by decide⟩
  · exact (C4_split_spec.1 _).mpr rfl
  · exact C4_split_spec.2.2.2 _ (by decide)

/-- C3: `NewEIP155` clamps and never rejects — for every chain-id input
the stored big-integer chain id is `min n (10^32 - 1)` (so inputs above
the cap are clamped to it and all others stored unchanged), the reference
is its decimal string, and the function is total (no error path exists). -/
theorem C3_eip155_clamp (n : Int) (addr : EthAddress) :
    (NewEIP155 n addr).chainID = min n maxEIP155ChainID ∧
    (NewEIP155 n addr).base.reference = intToDecStr (min n maxEIP155ChainID) ∧
    (NewEIP155 n addr).base.nspace = strB "eip155" := by
  unfold NewEIP155
  by_cases h : n > maxEIP155ChainID
  · rw [if_pos h]
    rw [min_eq_right (le_of_lt h)]
    exact ⟨rfl, rfl, rfl⟩
  · rw [if_neg h]
    rw [min_eq_left (not_lt.mp h)]
    exact ⟨rfl, rfl, rfl⟩

/-- C10: `SolanaNetwork.String` and `BIP122Network.String` return the
token unchanged up to 32 bytes and silently truncate to the first 32
bytes beyond that; `NewSolana` and `NewBIP122` store that (possibly
truncated) string as the reference. -/
theorem C10_network_truncation :
    (∀ n : Str, 32 < n.length → SolanaNetworkString n = n.take 32) ∧
    (∀ n : Str, n.length ≤ 32 → SolanaNetworkString n = n) ∧
    (∀ n : Str, 32 < n.length → BIP122NetworkString n = n.take 32) ∧
    (∀ n : Str, n.length ≤ 32 → BIP122NetworkString n = n) ∧
    (∀ (network : Str) (pk : List Nat),
      (NewSolana network pk).base.reference = SolanaNetworkString network) ∧
    (∀ network address : Str,
      (NewBIP122 network address).base.reference = BIP122NetworkString network) := by
  refine ⟨fun n h => ?_, fun n h => ?_, fun n h => ?_, fun n h => ?_,
    fun _ _ => rfl, fun _ _ => rfl⟩
  · simp [SolanaNetworkString, h]
  · simp [SolanaNetworkString, Nat.not_lt.mpr h]
  · simp [BIP122NetworkString, h]
  · simp [BIP122NetworkString, Nat.not_lt.mpr h]

/-- C10 witness: a 33-byte network token is stored truncated to its first
32 bytes. -/
theorem C10_network_truncation_witness :
    32 < (strB "0123456789abcdef0123456789abcdefX").length ∧
    SolanaNetworkString (strB "0123456789abcdef0123456789abcdefX") =
      (strB "0123456789abcdef0123456789abcdefX").take 32 ∧
    BIP122NetworkString (strB "0123456789abcdef0123456789abcdefX") =
      strB "0123456789abcdef0123456789abcdef" := by
  refine ⟨by decide, C10_network_truncation.1 _ (by decide), ?_⟩
  exact (C10_network_truncation.2.2.1 _ (by decide)).trans (by decide)

/-- C5: `MarshalBinary` lays out a 1-byte namespace length, a 1-byte
reference length, a 2-byte big-endian address length and then the three
byte strings in order (stated for values whose lengths fit the header
fields); the zero value marshals to four zero bytes; `UnmarshalBinary`
rejects inputs shorter than 4 bytes and any total-length mismatch with
`InvalidFormat`. -/
theorem marshalBinary_layout {a : GenericAccountID} (h1 : a.nspace.length < 256)
    (h2 : a.reference.length < 256) (h3 : a.address.length < 65536) :
    a.MarshalBinary = a.nspace.length :: a.reference.length ::
      a.address.length / 256 :: a.address.length % 256 ::
      (a.nspace ++ a.reference ++ a.address) := by
  have hdiv : a.address.length / 256 < 256 := Nat.div_lt_of_lt_mul (by omega)
  unfold GenericAccountID.MarshalBinary
  rw [Nat.mod_eq_of_lt h1, Nat.mod_eq_of_lt h2, Nat.mod_eq_of_lt hdiv]

theorem C5_binary_codec :
    (∀ a : GenericAccountID, a.nspace.length < 256 → a.reference.length < 256 →
      a.address.length < 65536 →
      a.MarshalBinary = a.nspace.length :: a.reference.length ::
        a.address.length / 256 :: a.address.length % 256 ::
        (a.nspace ++ a.reference ++ a.address)) ∧
    GenericAccountID.MarshalBinary zeroAcct = [0, 0, 0, 0] ∧
    (∀ data : List Nat, data.length < 4 →
      GenericAccountID.UnmarshalBinary data = .error .invalidFormat) ∧
    (∀ (b0 b1 b2 b3 : Nat) (rest : List Nat),
      (b0 :: b1 :: b2 :: b3 :: rest).length ≠ 4 + b0 + b1 + (b2 * 256 + b3) →
      GenericAccountID.UnmarshalBinary (b0 :: b1 :: b2 :: b3 :: rest) =
        .error .invalidFormat) := by
  refine ⟨fun a h1 h2 h3 => marshalBinary_layout h1 h2 h3, by decide,
    fun data h => ?_, fun b0 b1 b2 b3 rest h => ?_⟩
  · rcases data with _ | ⟨b0, _ | ⟨b1, _ | ⟨b2, _ | ⟨b3, rest⟩⟩⟩⟩
    · rfl
    · rfl
    · rfl
    · rfl
    · exfalso
      simp [List.length_cons] at h
      omega
  · simp only [GenericAccountID.UnmarshalBinary]
    rw [if_pos (by simpa using h)]

/-- C5 witness: the layout applied to a concrete identifier, and the two
rejection conditions at concrete inputs. -/
theorem C5_binary_codec_witness :
    GenericAccountID.MarshalBinary ⟨strB "abc", strB "r", strB "xy"⟩ =
      [3, 1, 0, 2] ++ (strB "abc" ++ strB "r" ++ strB "xy") ∧
    GenericAccountID.UnmarshalBinary [0, 0, 0] = .error .invalidFormat ∧
    GenericAccountID.UnmarshalBinary [1, 0, 0, 0] = .error .invalidFormat := by
  refine ⟨?_, ?_, ?_⟩
  · exact (C5_binary_codec.1 ⟨strB "abc", strB "r", strB "xy"⟩
      (by decide) (by decide) (by decide)).trans (by decide)
  · exact C5_binary_codec.2.2.1 [0, 0, 0] (by decide)
  · exact C5_binary_codec.2.2.2 1 0 0 0 [] (by decide)

/-- C8: interface equality is structural on the three fields and does not
depend on the concrete variants of the two sides — it holds exactly when
both sides are zero values or both are non-zero with identical namespace,
reference, and address. -/
theorem C8_structural_equality (x y : AnyAccountID) :
    AnyAccountID.Equal x y = true ↔
      ((x.IsZero = true ∧ y.IsZero = true) ∨
       (x.IsZero = false ∧ y.IsZero = false ∧
        x.base.nspace = y.base.nspace ∧ x.base.reference = y.base.reference ∧
        x.base.address = y.base.address)) := by
  unfold AnyAccountID.Equal
  by_cases hx : x.IsZero <;> by_cases hy : y.IsZero <;>
    simp [hx, hy, Bool.and_eq_true, beq_iff_eq, and_assoc]

theorem goSplitColonAux_cons (c : Nat) (x : Str) (r : List Str) :
    goSplitColonAux c (x :: r) = if c = colonByte then [] :: x :: r else (c :: x) :: r := rfl

theorem goSplitColon_cons (c : Nat) (t : Str) :
    goSplitColon (c :: t) = goSplitColonAux c (goSplitColon t) := rfl

theorem goSplitColon_length (s : Str) : (goSplitColon s).length = s.count colonByte + 1 := by
  induction s with
  | nil => simp [goSplitColon]
  | cons c t ih =>
    rw [goSplitColon_cons]
    cases hg : goSplitColon t with
    | nil => rw [hg] at ih; simp at ih
    | cons h r =>
      rw [hg] at ih
      rw [goSplitColonAux_cons]
      by_cases hc : c = colonByte
      · rw [if_pos hc]
        simp only [List.length_cons] at ih ⊢
        rw [List.count_cons, if_pos (by simp [hc])]
        omega
      · rw [if_neg hc]
        simp only [List.length_cons] at ih ⊢
        rw [List.count_cons, if_neg (by simp [hc])]
        omega

theorem goSplitColon_ne_nil (s : Str) : goSplitColon s ≠ [] := by
  intro e
  have := goSplitColon_length s
  rw [e] at this
  simp at this

theorem goSplitColon_no_colon {s : Str} (h : colonByte ∉ s) : goSplitColon s = [s] := by
  induction s with
  | nil => rfl
  | cons c t ih =>
    have hc : c ≠ colonByte := fun e => h (e ▸ List.mem_cons_self c t)
    have ht : colonByte ∉ t := fun m => h (List.mem_cons_of_mem _ m)
    rw [goSplitColon_cons, ih ht, goSplitColonAux_cons, if_neg hc]

theorem goSplitColon_append {a : Str} (b : Str) (h : colonByte ∉ a) :
    goSplitColon (a ++ colonByte :: b) = a :: goSplitColon b := by
  induction a with
  | nil =>
    show goSplitColon (colonByte :: b) = [] :: goSplitColon b
    rw [goSplitColon_cons]
    cases hg : goSplitColon b with
    | nil => exact absurd hg (goSplitColon_ne_nil b)
    | cons x r => rw [goSplitColonAux_cons, if_pos rfl]
  | cons c t ih =>
    have hc : c ≠ colonByte := fun e => h (e ▸ List.mem_cons_self c t)
    have ht : colonByte ∉ t := fun m => h (List.mem_cons_of_mem _ m)
    show goSplitColon (c :: (t ++ colonByte :: b)) = (c :: t) :: goSplitColon b
    rw [goSplitColon_cons, ih ht]
    cases hg : goSplitColon b with
    | nil => exact absurd hg (goSplitColon_ne_nil b)
    | cons x r => rw [goSplitColonAux_cons, if_neg hc]

/-- C2 (amended): whenever `ParseChainID` succeeds on the CAIP-2 prefix
`namespace:reference` of an account identifier, its result is exactly the
identifier's own `ChainID()` projection.  (The unamended claim also
asserted that this parse always succeeds; `C2_counterexample` refutes
that.) -/
theorem C2_chainid_prefix_agreement (a : GenericAccountID) (c : ChainID)
    (h : ParseChainID (a.nspace ++ colonByte :: a.reference) = .ok c) :
    c = a.toChainID := by
  unfold ParseChainID at h
  split at h
  · next p0 p1 heq =>
    split at h
    · exact absurd h (by simp)
    · simp only [Except.ok.injEq] at h
      subst h
      -- the two parts must be the namespace and the reference
      have hlen := goSplitColon_length (a.nspace ++ colonByte :: a.reference)
      rw [heq] at hlen
      simp only [List.length_cons, List.length_nil] at hlen
      have hcnt : (a.nspace ++ colonByte :: a.reference).count colonByte =
          a.nspace.count colonByte + (a.reference.count colonByte + 1) := by
        rw [List.count_append, List.count_cons, if_pos (by simp)]
      have hns : colonByte ∉ a.nspace := by
        intro m
        have := count_pos_of_mem m
        omega
      have href : colonByte ∉ a.reference := by
        intro m
        have := count_pos_of_mem m
        omega
      rw [goSplitColon_append _ hns, goSplitColon_no_colon href] at heq
      simp only [List.cons.injEq, and_true] at heq
      obtain ⟨h1, h2⟩ := heq
      rw [← h1, ← h2]
      rfl
  · exact absurd h (by simp)

/-- C2 witness: the agreement applied to `eip155:1`. -/
theorem C2_chainid_prefix_agreement_witness :
    (⟨strB "eip155", strB "1"⟩ : ChainID) =
      GenericAccountID.toChainID ⟨strB "eip155", strB "1", strB "0xab"⟩ :=
  C2_chainid_prefix_agreement ⟨strB "eip155", strB "1", strB "0xab"⟩
    ⟨strB "eip155", strB "1"⟩ (by decide)

/-- C2 counterexample: `Parse` accepts `cosmos:cosmoshub-3:cosmos1abc` as
a generic identifier, but `ParseChainID` rejects its CAIP-2 prefix with
`InvalidNamespace`, so the claimed parse does not succeed for every
identifier produced by `Parse`. -/
theorem C2_counterexample :
    Parse (strB "cosmos:cosmoshub-3:cosmos1abc") =
      .ok (.generic ⟨strB "cosmos", strB "cosmoshub-3", strB "cosmos1abc"⟩) ∧
    GenericAccountID.toChainID ⟨strB "cosmos", strB "cosmoshub-3", strB "cosmos1abc"⟩ =
      ⟨strB "cosmos", strB "cosmoshub-3"⟩ ∧
    ParseChainID (strB "cosmos:cosmoshub-3") = .error .invalidNamespace := by
  refine ⟨by decide, by decide, by decide⟩

/-- The set of namespace tokens held by the parser registry after the
three `init` registrations (interface.go); `RegisterParser` adds its
parser's namespace to this key set. -/
def registryKeys : List Str := [strB "eip155", strB "solana", strB "bip122"]

/-- The effect of `RegisterParser` on the registry's key set. -/
def RegisterParserKey (reg : List Str) (ns : Str) : List Str := ns :: reg

/-- `GetParser` hit test: whether a namespace is registered. -/
def GetParserRegistered (reg : List Str) (ns : Str) : Bool := reg.contains ns

theorem ParseChainID_two {p0 p1 s : Str} (hsp : goSplitColon s = [p0, p1]) :
    ParseChainID s =
      (match validateReference p0 p1 with
        | .error e => .error e
        | .ok _ => .ok ⟨p0, p1⟩) := by
  unfold ParseChainID
  rw [hsp]

/-- C7 (amended): `validateReference`, `ChainID.Validate` and
`ParseChainID` reject every namespace other than the three built-ins
`eip155`, `solana`, `bip122` with `InvalidNamespace`, and never answer
`InvalidNamespace` for those three; the universe is closed to exactly the
three built-ins (parser registration does not influence any of these
functions — see `C7_counterexample`). -/
theorem C7_chainid_closed_universe :
    (∀ ns ref : Str, ns ≠ strB "eip155" → ns ≠ strB "solana" → ns ≠ strB "bip122" →
      validateReference ns ref = .error .invalidNamespace) ∧
    (∀ c : ChainID, c.nspace ≠ strB "eip155" → c.nspace ≠ strB "solana" →
      c.nspace ≠ strB "bip122" → c.IsZero = false →
      c.ValidateChain = .error .invalidNamespace) ∧
    (∀ (s p0 p1 : Str), goSplitColon s = [p0, p1] →
      p0 ≠ strB "eip155" → p0 ≠ strB "solana" → p0 ≠ strB "bip122" →
      ParseChainID s = .error .invalidNamespace) ∧
    (∀ ns ref : Str, (ns = strB "eip155" ∨ ns = strB "solana" ∨ ns = strB "bip122") →
      validateReference ns ref ≠ .error .invalidNamespace) := by
  have hneg : ∀ ns ref : Str, ns ≠ strB "eip155" → ns ≠ strB "solana" → ns ≠ strB "bip122" →
      validateReference ns ref = .error .invalidNamespace := by
    intro ns ref h1 h2 h3
    unfold validateReference
    rw [if_neg h1, if_neg h2, if_neg h3]
  refine ⟨hneg, fun c h1 h2 h3 hz => ?_, fun s p0 p1 hsp h1 h2 h3 => ?_, fun ns ref h => ?_⟩
  · unfold ChainID.ValidateChain
    rw [hz]
    exact hneg _ _ h1 h2 h3
  · rw [ParseChainID_two hsp, hneg _ _ h1 h2 h3]
  · unfold validateReference
    rcases h with rfl | rfl | rfl
    · rw [if_pos rfl]
      cases hp : goParseUint64 ref <;> simp
    · rw [if_neg (by decide), if_pos rfl]
      by_cases hr : solanaReferenceRegexMatch ref <;> simp [hr]
    · rw [if_neg (by decide), if_neg (by decide), if_pos rfl]
      by_cases hr : bip122ReferenceRegexMatch ref <;> simp [hr]

/-- C7 witness: the closed-universe rejection at a concrete unregistered
namespace, and non-`InvalidNamespace` behaviour for a built-in. -/
theorem C7_chainid_closed_universe_witness :
    validateReference (strB "cosmos") (strB "cosmoshub-3") = .error .invalidNamespace ∧
    ParseChainID (strB "cosmos:cosmoshub-3") = .error .invalidNamespace ∧
    validateReference (strB "eip155") (strB "abc") ≠ .error .invalidNamespace := by
  refine ⟨C7_chainid_closed_universe.1 _ _ (by decide) (by decide) (by decide),
    C7_chainid_closed_universe.2.2.1 (strB "cosmos:cosmoshub-3") (strB "cosmos")
      (strB "cosmoshub-3") (by decide) (by decide) (by decide) (by decide),
    C7_chainid_closed_universe.2.2.2 _ _ (Or.inl rfl)⟩

/-- C7 counterexample: registering a parser for a new namespace token
(`cosmos`) makes the registry report it as registered, yet `ChainID`
validation and `ParseChainID` — which never consult the registry — still
reject that namespace with `InvalidNamespace`, contradicting the claimed
registration-extensible ChainID universe. -/
theorem C7_counterexample :
    GetParserRegistered (RegisterParserKey registryKeys (strB "cosmos")) (strB "cosmos") = true ∧
    ChainID.ValidateChain ⟨strB "cosmos", strB "cosmoshub-3"⟩ = .error .invalidNamespace ∧
    ParseChainID (strB "cosmos:cosmoshub-3") = .error .invalidNamespace := by
  refine ⟨by decide, by decide, by decide⟩

/-- C6: the dispatcher `Parse` fails with `InvalidFormat` on
`eip155:1` (missing address segment); it accepts `unknown:1:addr`
(unregistered 7-character lowercase namespace) as a Generic identifier;
in general, every successfully split string with an unregistered
namespace is delegated to generic construction under the shared grammar,
and every registered (built-in) namespace is delegated to that
namespace's parser. -/
theorem C6_parse_dispatch :
    Parse (strB "eip155:1") = .error .invalidFormat ∧
    Parse (strB "unknown:1:addr") = .ok (.generic ⟨strB "unknown", strB "1", strB "addr"⟩) ∧
    NamespaceRegexMatch (strB "unknown") = true ∧
    (∀ s ns ref addr : Str, SplitCAIP10 s = .ok (ns, ref, addr) →
      ns ≠ strB "eip155" → ns ≠ strB "solana" → ns ≠ strB "bip122" →
      Parse s = (NewGeneric ns ref addr).map AnyAccountID.generic) ∧
    (∀ s ns ref addr : Str, SplitCAIP10 s = .ok (ns, ref, addr) → ns = strB "eip155" →
      Parse s = eip155ParseAddress ref addr) ∧
    (∀ s ns ref addr : Str, SplitCAIP10 s = .ok (ns, ref, addr) → ns = strB "solana" →
      Parse s = solanaParseAddress ref addr) ∧
    (∀ s ns ref addr : Str, SplitCAIP10 s = .ok (ns, ref, addr) → ns = strB "bip122" →
      Parse s = bip122ParseAddress ref addr) := by
  refine ⟨by decide, by decide, by decide, fun s ns ref addr hsp h1 h2 h3 => ?_,
    fun s ns ref addr hsp h1 => ?_, fun s ns ref addr hsp h1 => ?_,
    fun s ns ref addr hsp h1 => ?_⟩
  · unfold Parse
    rw [hsp]
    show (if ns = strB "eip155" then _ else _) = _
    rw [if_neg h1, if_neg h2, if_neg h3]
    cases hg : NewGeneric ns ref addr <;> simp [hg, Except.map]
  · unfold Parse
    rw [hsp]
    show (if ns = strB "eip155" then _ else _) = _
    rw [if_pos h1]
  · unfold Parse
    rw [hsp]
    show (if ns = strB "eip155" then _ else _) = _
    rw [if_neg (h1 ▸ (by decide : strB "solana" ≠ strB "eip155")), if_pos h1]
  · unfold Parse
    rw [hsp]
    show (if ns = strB "eip155" then _ else _) = _
    rw [if_neg (h1 ▸ (by decide : strB "bip122" ≠ strB "eip155")),
      if_neg (h1 ▸ (by decide : strB "bip122" ≠ strB "solana")), if_pos h1]

/-- C6 witness: the generic fallback and the registered delegation applied
at concrete inputs. -/
theorem C6_parse_dispatch_witness :
    SplitCAIP10 (strB "cosmos:hub:addr1") = .ok (strB "cosmos", strB "hub", strB "addr1") ∧
    Parse (strB "cosmos:hub:addr1") =
      (NewGeneric (strB "cosmos") (strB "hub") (strB "addr1")).map AnyAccountID.generic ∧
    Parse (strB "eip155:1:0xab") = eip155ParseAddress (strB "1") (strB "0xab") := by
  refine ⟨by decide,
    C6_parse_dispatch.2.2.2.1 _ _ _ _ (by decide) (by decide) (by decide) (by decide),
    C6_parse_dispatch.2.2.2.2.1 _ _ _ _ (by decide) rfl⟩

theorem web3NewPublicKey_length {s : Str} {pk : List Nat}
    (h : web3NewPublicKey s = some pk) : pk.length = 32 := by
  unfold web3NewPublicKey at h
  split at h
  · next b hb =>
    split at h
    · next hlen =>
      simp only [Option.some.injEq] at h
      subst h
      exact hlen
    · exact absurd h (by simp)
  · exact absurd h (by simp)

/-- C9: the bip122 parser is total and validates nothing — `ParseAddress`
succeeds on every reference and address; the solana parser's success
depends only on the address (base58 format regex plus a 32-byte decode),
never on the reference; and the registry dispatcher accepts
`bip122:nothex:!!` although its reference and address violate the
published bip122 grammars. -/
theorem C9_loose_variant_validation :
    (∀ reference address : Str, bip122ParseAddress reference address =
      .ok (.btc (NewBIP122 reference address))) ∧
    (∀ reference address : Str, (solanaParseAddress reference address).isOk =
      (solanaAddressRegexMatch address && (web3NewPublicKey address).isSome)) ∧
    Parse (strB "bip122:nothex:!!") =
      .ok (.btc (NewBIP122 (strB "nothex") (strB "!!"))) ∧
    bitcoinMainnetAddressMatch (strB "!!") = false ∧
    bip122ReferenceRegexMatch (strB "nothex") = false := by
  refine ⟨fun reference address => rfl, fun reference address => ?_, by decide, by decide,
    by decide⟩
  unfold solanaParseAddress NewSolanaFromBase58
  by_cases hr : solanaAddressRegexMatch address
  · rw [hr]
    simp only [Bool.not_true, Bool.true_and]
    cases hw : web3NewPublicKey address with
    | none => rfl
    | some pk =>
      have hlen := web3NewPublicKey_length hw
      simp [hlen]
      rfl
  · rw [Bool.not_eq_true] at hr
    rw [hr]
    rfl

theorem validate_ok_nsRegex {a : GenericAccountID} (h : a.Validate = .ok ()) :
    NamespaceRegexMatch a.nspace = true := by
  by_cases hr : NamespaceRegexMatch a.nspace
  · exact hr
  · exfalso
    unfold GenericAccountID.Validate at h
    rw [Bool.not_eq_true] at hr
    rw [hr] at h
    simp at h

theorem nsRegex_no_colon {s : Str} (h : NamespaceRegexMatch s = true) : colonByte ∉ s := by
  intro m
  unfold NamespaceRegexMatch matchCharset at h
  simp only [Bool.and_eq_true, List.all_eq_true, decide_eq_true_eq] at h
  exact absurd (h.2 colonByte m) (by decide)

theorem nsRegex_ne_nil {s : Str} (h : NamespaceRegexMatch s = true) : s ≠ [] := by
  intro e
  subst e
  exact absurd h (by decide)

theorem validate_nonzero {a : GenericAccountID} (h : a.Validate = .ok ()) :
    a.IsZero = false := by
  have hne := nsRegex_ne_nil (validate_ok_nsRegex h)
  unfold GenericAccountID.IsZero
  cases hs : a.nspace with
  | nil => exact absurd hs hne
  | cons c t => rfl

theorem stringRep_eq {a : GenericAccountID} (h : a.IsZero = false) :
    a.StringRep = a.nspace ++ colonByte :: (a.reference ++ colonByte :: a.address) := by
  unfold GenericAccountID.StringRep
  rw [h]
  simp

theorem stringRep_ne_nil {a : GenericAccountID} (h : a.IsZero = false) :
    a.StringRep ≠ [] := by
  rw [stringRep_eq h]
  simp

theorem NewGeneric_of_validate {a : GenericAccountID} (hv : a.Validate = .ok ()) :
    NewGeneric a.nspace a.reference a.address = .ok a := by
  unfold NewGeneric
  have he : (⟨a.nspace, a.reference, a.address⟩ : GenericAccountID) = a := rfl
  rw [he, hv]

theorem unmarshalText_roundtrip {a : GenericAccountID} (hv : a.Validate = .ok ())
    (hrc : colonByte ∉ a.reference) :
    GenericAccountID.UnmarshalText a.MarshalText = .ok a := by
  have hnz := validate_nonzero hv
  have hnc := nsRegex_no_colon (validate_ok_nsRegex hv)
  show GenericAccountID.UnmarshalText a.StringRep = .ok a
  rw [stringRep_eq hnz]
  unfold GenericAccountID.UnmarshalText
  rw [SplitCAIP10_build _ _ _ hnc hrc]
  exact NewGeneric_of_validate hv

theorem take_len_append (a b : List Nat) : (a ++ b).take a.length = a := by
  induction a with
  | nil => rfl
  | cons c t ih => simp [ih]

theorem drop_len_append (a b : List Nat) : (a ++ b).drop a.length = b := by
  induction a with
  | nil => rfl
  | cons c t ih => simp [ih]

theorem drop_len_add_append (a : List Nat) (n : Nat) (b : List Nat) :
    (a ++ b).drop (a.length + n) = b.drop n := by
  induction a with
  | nil => simp
  | cons c t ih =>
    show (c :: (t ++ b)).drop (t.length + 1 + n) = b.drop n
    rw [show t.length + 1 + n = (t.length + n) + 1 from by omega]
    rw [List.drop_succ_cons]
    exact ih

theorem unmarshalBinary_roundtrip {a : GenericAccountID} (hv : a.Validate = .ok ())
    (h1 : a.nspace.length < 256) (h2 : a.reference.length < 256)
    (h3 : a.address.length < 65536) :
    GenericAccountID.UnmarshalBinary a.MarshalBinary = .ok a := by
  rw [marshalBinary_layout h1 h2 h3]
  simp only [GenericAccountID.UnmarshalBinary]
  have hmod : a.address.length / 256 * 256 + a.address.length % 256 = a.address.length := by
    omega
  rw [hmod]
  rw [if_neg (by simp only [List.length_cons, List.length_append]; omega)]
  rw [List.append_assoc, take_len_append, drop_len_append, take_len_append,
    drop_len_add_append, drop_len_append, List.take_length]
  exact NewGeneric_of_validate hv

theorem unmarshalJSON_roundtrip {a : GenericAccountID} (hv : a.Validate = .ok ())
    (hrc : colonByte ∉ a.reference) :
    GenericAccountID.UnmarshalJSON a.MarshalJSON = .ok a := by
  have hnz := validate_nonzero hv
  have hsne := stringRep_ne_nil hnz
  unfold GenericAccountID.MarshalJSON
  rw [hnz, if_neg (by simp), List.cons_append]
  have hnull : quoteByte :: (a.StringRep ++ [quoteByte]) ≠ strB "null" := by
    have hnl : strB "null" = 110 :: [117, 108, 108] := by decide
    intro h
    rw [hnl] at h
    injection h with hh _
    exact absurd hh (by decide)
  have hhead : (quoteByte :: (a.StringRep ++ [quoteByte])).head? = some quoteByte := rfl
  have hlast : (quoteByte :: (a.StringRep ++ [quoteByte])).getLast? = some quoteByte := by
    rw [← List.cons_append]
    exact List.getLast?_concat _
  unfold GenericAccountID.UnmarshalJSON
  rw [if_neg hnull]
  rw [if_neg ?hcond]
  case hcond =>
    rintro (h | h | h)
    · simp only [List.length_cons, List.length_append] at h
      omega
    · exact h hhead
    · exact h hlast
  show (if (((quoteByte :: (a.StringRep ++ [quoteByte])).drop 1).dropLast = ([] : Str)) then
      Except.ok zeroAcct
    else GenericAccountID.UnmarshalText
      (((quoteByte :: (a.StringRep ++ [quoteByte])).drop 1).dropLast)) = .ok a
  rw [List.drop_succ_cons, List.drop_zero, List.dropLast_concat]
  rw [if_neg hsne]
  exact unmarshalText_roundtrip hv hrc

theorem scan_roundtrip {a : GenericAccountID} (hv : a.Validate = .ok ())
    (hrc : colonByte ∉ a.reference) :
    a.ScanOfValue = .ok a := by
  have hnz := validate_nonzero hv
  have hsne := stringRep_ne_nil hnz
  unfold GenericAccountID.ScanOfValue GenericAccountID.ValueSQL
  rw [hnz, if_neg (by simp)]
  show GenericAccountID.ScanSQL (.strSrc a.StringRep) = .ok a
  show (if a.StringRep = [] then Except.ok zeroAcct
    else GenericAccountID.UnmarshalText a.StringRep) = .ok a
  rw [if_neg hsne]
  exact unmarshalText_roundtrip hv hrc

/-- C1 (amended): for every valid `GenericAccountID` whose reference is
colon-free and whose field lengths fit the binary header, the text,
binary, JSON and SQL `Scan(Value)` round trips each reproduce the value
exactly; for the zero value the JSON and SQL round trips reproduce it,
while the text and binary round trips fail (`EmptyValue` resp.
`InvalidNamespace`) — refuting the unamended claim's "including the zero
value". -/
theorem C1_codec_roundtrips :
    (∀ a : GenericAccountID, a.Validate = .ok () → colonByte ∉ a.reference →
      a.nspace.length < 256 → a.reference.length < 256 → a.address.length < 65536 →
      GenericAccountID.UnmarshalText a.MarshalText = .ok a ∧
      GenericAccountID.UnmarshalBinary a.MarshalBinary = .ok a ∧
      GenericAccountID.UnmarshalJSON a.MarshalJSON = .ok a ∧
      a.ScanOfValue = .ok a) ∧
    GenericAccountID.UnmarshalJSON (GenericAccountID.MarshalJSON zeroAcct) = .ok zeroAcct ∧
    GenericAccountID.ScanOfValue zeroAcct = .ok zeroAcct ∧
    GenericAccountID.UnmarshalText (GenericAccountID.MarshalText zeroAcct) =
      .error .emptyValue ∧
    GenericAccountID.UnmarshalBinary (GenericAccountID.MarshalBinary zeroAcct) =
      .error .invalidNamespace :=
  ⟨fun _ hv hrc h1 h2 h3 =>
    ⟨unmarshalText_roundtrip hv hrc, unmarshalBinary_roundtrip hv h1 h2 h3,
      unmarshalJSON_roundtrip hv hrc, scan_roundtrip hv hrc⟩,
    by decide, by decide, by decide, by decide⟩

/-- C1 counterexample: at the zero value the text round trip fails with
`EmptyValue` and the binary round trip fails with `InvalidNamespace`, so
not every codec round trip succeeds on every `AccountID`. -/
theorem C1_codec_roundtrips_counterexample :
    GenericAccountID.IsZero zeroAcct = true ∧
    GenericAccountID.UnmarshalText (GenericAccountID.MarshalText zeroAcct) =
      .error .emptyValue ∧
    GenericAccountID.UnmarshalBinary (GenericAccountID.MarshalBinary zeroAcct) =
      .error .invalidNamespace := by
  refine ⟨rfl, by decide, by decide⟩

/-- C1 witness: the four round trips applied to a concrete valid generic
identifier. -/
theorem C1_codec_roundtrips_witness :
    GenericAccountID.Validate ⟨strB "cosmos", strB "cosmoshub-3", strB "cosmos1abc"⟩ =
      .ok () ∧
    (GenericAccountID.UnmarshalText
        (GenericAccountID.MarshalText ⟨strB "cosmos", strB "cosmoshub-3", strB "cosmos1abc"⟩) =
      .ok ⟨strB "cosmos", strB "cosmoshub-3", strB "cosmos1abc"⟩ ∧
    GenericAccountID.UnmarshalBinary
        (GenericAccountID.MarshalBinary ⟨strB "cosmos", strB "cosmoshub-3", strB "cosmos1abc"⟩) =
      .ok ⟨strB "cosmos", strB "cosmoshub-3", strB "cosmos1abc"⟩ ∧
    GenericAccountID.UnmarshalJSON
        (GenericAccountID.MarshalJSON ⟨strB "cosmos", strB "cosmoshub-3", strB "cosmos1abc"⟩) =
      .ok ⟨strB "cosmos", strB "cosmoshub-3", strB "cosmos1abc"⟩ ∧
    GenericAccountID.ScanOfValue ⟨strB "cosmos", strB "cosmoshub-3", strB "cosmos1abc"⟩ =
      .ok ⟨strB "cosmos", strB "cosmoshub-3", strB "cosmos1abc"⟩) :=
  ⟨by decide,
    C1_codec_roundtrips.1 ⟨strB "cosmos", strB "cosmoshub-3", strB "cosmos1abc"⟩
      (by decide) (by decide) (by decide) (by decide) (by decide)⟩
